import Mathlib

/-!
Verification development for the clinic-billing CSV → QuickBooks synchronizer.

The Python sources are shallowly embedded: pandas/Decimal string munging is
modelled on `List Char` / `String` with exact scaled decimals (`Dec`),
remote HTTP interaction is modelled as a pure oracle `Remote` mapping each
SQL-like query string to either a decoded JSON value or a raised exception,
and JSON dictionaries are modelled by the inductive `JVal` with Python
`dict.get` / truthiness semantics.
-/

/-! ## Python string primitives (char-list based, kernel-computable) -/

/-- Python `str.lower()` (ASCII). -/
def pyLower (s : String) : String := String.mk (s.data.map Char.toLower)

/-- Python `str.upper()` (ASCII). -/
def pyUpper (s : String) : String := String.mk (s.data.map Char.toUpper)

/-- Strip leading and trailing whitespace from a char list. -/
def stripChars (l : List Char) : List Char :=
  ((l.dropWhile Char.isWhitespace).reverse.dropWhile Char.isWhitespace).reverse

/-- Python `str.strip()` (whitespace). -/
def pyStrip (s : String) : String := String.mk (stripChars s.data)

/-- Python `str.capitalize()`: first char uppercased, the rest lowercased. -/
def pyCapitalize (s : String) : String :=
  match s.data with
  | [] => ""
  | c :: rest => String.mk (c.toUpper :: rest.map Char.toLower)

/-- Helper for `pyTitle`: `prevAlpha` records whether the previous char was a letter. -/
def titleChars : Bool → List Char → List Char
  | _, [] => []
  | prevAlpha, c :: rest =>
    let c' := if c.isAlpha then (if prevAlpha then c.toLower else c.toUpper) else c
    c' :: titleChars c.isAlpha rest

/-- Python `str.title()`: uppercase every letter that follows a non-letter. -/
def pyTitle (s : String) : String := String.mk (titleChars false s.data)

/-- Split a char list at every char satisfying `p`, keeping empty segments. -/
def splitWhenChars (p : Char → Bool) : List Char → List (List Char)
  | [] => [[]]
  | c :: rest =>
    let r := splitWhenChars p rest
    if p c then [] :: r
    else match r with
      | [] => [[c]]
      | x :: xs => (c :: x) :: xs

/-- Join strings with a separator. -/
def joinSep (sep : String) : List String → String
  | [] => ""
  | [x] => x
  | x :: xs => x ++ sep ++ joinSep sep xs

/-- Python `' '.join(s.split())`: collapse whitespace runs, trim ends. -/
def collapseWs (s : String) : String :=
  joinSep " " (((splitWhenChars Char.isWhitespace s.data).map String.mk).filter
    (fun t => t ≠ ""))

/-- Split a char list on a separator char, Python `str.split(sep)` style
(keeps empty fields). -/
def splitCharsOn (sep : Char) : List Char → List (List Char)
  | [] => [[]]
  | c :: rest =>
    let r := splitCharsOn sep rest
    if c = sep then [] :: r
    else match r with
      | [] => [[c]]
      | x :: xs => (c :: x) :: xs

/-- Python `s.split(',')`. -/
def pySplitComma (s : String) : List String :=
  (splitCharsOn ',' s.data).map String.mk

/-- Whether `pat` is a prefix of `l`. -/
def isPrefixL : List Char → List Char → Bool
  | [], _ => true
  | _ :: _, [] => false
  | p :: ps, c :: cs => p = c && isPrefixL ps cs

/-- Whether `pat` occurs as a contiguous substring of `l`. -/
def containsL (pat : List Char) : List Char → Bool
  | [] => isPrefixL pat []
  | c :: cs => isPrefixL pat (c :: cs) || containsL pat cs

/-- Python `pat in s` substring test. -/
def strContains (s pat : String) : Bool := containsL pat.data s.data

/-- One fuel-indexed pass of Python `str.replace` on char lists. -/
def replaceChars (pat rep : List Char) : Nat → List Char → List Char
  | _, [] => []
  | 0, l => l
  | fuel + 1, c :: rest =>
    if pat ≠ [] && isPrefixL pat (c :: rest) then
      rep ++ replaceChars pat rep fuel ((c :: rest).drop pat.length)
    else
      c :: replaceChars pat rep fuel rest

/-- Python `s.replace(pat, rep)` (all non-overlapping occurrences, left to right;
callers never pass an empty pattern). -/
def pyReplace (s pat rep : String) : String :=
  String.mk (replaceChars pat.data rep.data s.data.length s.data)

/-- If `s` starts with `pre` and then ends with `suf`, return the middle. -/
def extractBetween (s pre suf : String) : Option String :=
  if isPrefixL pre.data s.data then
    let rest := s.data.drop pre.data.length
    if isPrefixL suf.data.reverse rest.reverse then
      some (String.mk (rest.take (rest.length - suf.data.length)))
    else none
  else none

/-- Digits of a char list as a natural number (most significant first). -/
def digitsToNat : List Char → Nat
  | [] => 0
  | c :: rest => digitsToNat rest + c.toNat.sub 48 * 10 ^ rest.length

/-! ## Exact decimals
Python `decimal.Decimal` values are embedded as an integer mantissa over a
power-of-ten denominator (`m / 10^e`).  All operations are kernel-computable
integer arithmetic, so concrete runs evaluate by `decide`. -/

/-- `10^e` as an integer. -/
def pow10 : Nat → Int
  | 0 => 1
  | n + 1 => 10 * pow10 n

/-- An exact decimal `m / 10^e`. -/
structure Dec where
  m : Int
  e : Nat
deriving DecidableEq, Repr

/-- Strip factors of ten so equal values get equal representations. -/
def stripTens : Int → Nat → Dec
  | m, 0 => ⟨m, 0⟩
  | m, e + 1 => if m % 10 = 0 then stripTens (m / 10) e else ⟨m, e + 1⟩

/-- Normalizing constructor for `m / 10^e`. -/
def Dec.norm (m : Int) (e : Nat) : Dec := if m = 0 then ⟨0, 0⟩ else stripTens m e

/-- The decimal `n`. -/
def Dec.ofInt (n : Int) : Dec := ⟨n, 0⟩

/-- Semantic order (cross-multiplied). -/
instance : LE Dec := ⟨fun a b => a.m * pow10 b.e ≤ b.m * pow10 a.e⟩

instance : LT Dec := ⟨fun a b => a.m * pow10 b.e < b.m * pow10 a.e⟩

instance (a b : Dec) : Decidable (a ≤ b) :=
  inferInstanceAs (Decidable (a.m * pow10 b.e ≤ b.m * pow10 a.e))

instance (a b : Dec) : Decidable (a < b) :=
  inferInstanceAs (Decidable (a.m * pow10 b.e < b.m * pow10 a.e))

/-- Semantic equality of decimals (independent of representation). -/
def Dec.eqv (a b : Dec) : Prop := a.m * pow10 b.e = b.m * pow10 a.e

instance (a b : Dec) : Decidable (a.eqv b) :=
  inferInstanceAs (Decidable (a.m * pow10 b.e = b.m * pow10 a.e))

/-- Exact product (`Decimal * Decimal`). -/
def Dec.mul (a b : Dec) : Dec := Dec.norm (a.m * b.m) (a.e + b.e)

/-- grammar of `decimal.Decimal(...)` restricted to the residue alphabet
`0-9 . -`: optional leading minus, then digits with at most one point and at
least one digit; anything else raises `InvalidOperation` (modelled as `none`). -/
def parsePyDecimal (s : String) : Option Dec :=
  let cs := s.data
  let (neg, body) := match cs with
    | '-' :: r => (true, r)
    | r => (false, r)
  if body.any (fun c => !c.isDigit && c ≠ '.') then none
  else
    let intPart := body.takeWhile Char.isDigit
    let rest := body.drop intPart.length
    let sign : Int := if neg then -1 else 1
    match rest with
    | [] =>
      if intPart = [] then none
      else some (Dec.norm (sign * digitsToNat intPart) 0)
    | '.' :: frac =>
      if frac.any (fun c => !c.isDigit) then none
      else if intPart = [] ∧ frac = [] then none
      else
        some (Dec.norm (sign * ((digitsToNat intPart : Int) * pow10 frac.length +
          (digitsToNat frac : Int))) frac.length)
    | _ => none

/-- Round a nonnegative scaled integer `num / den` to the nearest integer,
ties up. -/
def roundHalfUpNat (num den : Int) : Int :=
  let f := num.ediv den
  let r := num.emod den
  if 2 * r ≥ den then f + 1 else f

/-- Round to 2 decimals, ties away from zero (`decimal.ROUND_HALF_UP`). -/
def roundHalfUp2 (d : Dec) : Dec :=
  if d.e ≤ 2 then d
  else
    let p := pow10 (d.e - 2)
    if d.m ≥ 0 then Dec.norm (roundHalfUpNat d.m p) 2
    else Dec.norm (-(roundHalfUpNat (-d.m) p)) 2

/-- Round to 2 decimals, ties to even (default `Decimal.quantize` / Python
`round`). -/
def pyRound2 (d : Dec) : Dec :=
  if d.e ≤ 2 then d
  else
    let p := pow10 (d.e - 2)
    let f := d.m.ediv p
    let r := d.m.emod p
    let n : Int :=
      if 2 * r < p then f
      else if 2 * r > p then f + 1
      else if f % 2 = 0 then f else f + 1
    Dec.norm n 2

/-- `re.search(r'Id=(\d+)', text)`: first `Id=` immediately followed by at least
one digit; returns the digit run. -/
def extractIdEq : List Char → Option String
  | [] => none
  | c :: rest =>
    if c = 'I' then
      match rest with
      | 'd' :: '=' :: tail =>
        let ds := tail.takeWhile Char.isDigit
        if ds.isEmpty then extractIdEq rest else some (String.mk ds)
      | _ => extractIdEq rest
    else extractIdEq rest

/-! ## JSON values with Python dict semantics (`src/qb_client.py` responses) -/

/-- Decoded JSON value as seen by the Python services. -/
inductive JVal where
  | null
  | bool (b : Bool)
  | num (q : Dec)
  | str (s : String)
  | arr (xs : List JVal)
  | obj (fields : List (String × JVal))

/-- Lookup a key in an object's field list. -/
def lookupField : List (String × JVal) → String → Option JVal
  | [], _ => none
  | (k, v) :: rest, key => if k = key then some v else lookupField rest key

/-- Python `d.get(k)`; `none` when absent or when the value is not a dict. -/
def JVal.get? : JVal → String → Option JVal
  | .obj fields, k => lookupField fields k
  | _, _ => none

/-- Python `d.get(k, default)`. -/
def JVal.getD (j : JVal) (k : String) (d : JVal) : JVal := (j.get? k).getD d

/-- Python truthiness of a decoded JSON value. -/
def JVal.truthy : JVal → Bool
  | .null => false
  | .bool b => b
  | .num q => if q.m = 0 then false else true
  | .str s => s ≠ ""
  | .arr xs => !xs.isEmpty
  | .obj fs => !fs.isEmpty

/-- Extract a JSON string. -/
def asStr : Option JVal → Option String
  | some (.str s) => some s
  | _ => none

/-- Extract a JSON string with a default. -/
def asStrD (j : Option JVal) (d : String) : String := (asStr j).getD d

/-- Python `int(x)` (truncation toward zero) on a line id; our line ids are
integers so truncation and floor agree. -/
def asIntD (j : Option JVal) (d : Int) : Int :=
  match j with
  | some (.num q) => q.m.ediv (pow10 q.e)
  | some (.str s) =>
    match parsePyDecimal s with
    | some q => q.m.ediv (pow10 q.e)
    | none => d
  | _ => d

/-- Python dict assignment `d[k] = v` (replace in place, else append). -/
def setField : List (String × JVal) → String → JVal → List (String × JVal)
  | [], key, v => [(key, v)]
  | (k, w) :: rest, key, v =>
    if k = key then (key, v) :: rest else (k, w) :: setField rest key v

/-- `line[k] = v` on an object (no-op on non-objects, which never occurs). -/
def JVal.set (j : JVal) (k : String) (v : JVal) : JVal :=
  match j with
  | .obj fields => .obj (setField fields k v)
  | other => other

/-! ## Remote oracle and the safe query helper (`QuickBooksClient._query_safe`) -/

/-- A remote API run: each SQL-like query string either decodes to a body or
raises (network failure, HTTP error, JSON error — all surfaced as exceptions). -/
def Remote := String → Except String JVal

/-- `QuickBooksClient._query_safe`: on success return
`resp.get('QueryResponse', {}) or {}` (NOTE: this UNWRAPS the `QueryResponse`
envelope); on any exception log and return `{'QueryResponse': {}}` (the
envelope kept, empty inside). Total by construction — it never throws. -/
def query_safe (remote : Remote) (sql : String) : JVal :=
  match remote sql with
  | .ok resp =>
    let q := resp.getD "QueryResponse" (JVal.obj [])
    if q.truthy then q else JVal.obj []
  | .error _ => JVal.obj [("QueryResponse", JVal.obj [])]

/-- `QuickBooksClient.query` is an alias for `_query_safe`. -/
def qbQuery (remote : Remote) (sql : String) : JVal := query_safe remote sql

/-- `QuickBooksClient.find_item_by_name`: note the caller-side second unwrap
`data.get('QueryResponse', {}).get('Item', [])` applied to the ALREADY
unwrapped result of `_query_safe`. -/
def find_item_by_name (remote : Remote) (name : String) : Option JVal :=
  if name = "" then none
  else
    let escaped := pyReplace name "'" "''"
    let query := "SELECT * FROM Item WHERE Name = '" ++ escaped ++ "' AND Active = true"
    let data := query_safe remote query
    let items := (data.getD "QueryResponse" (JVal.obj [])).getD "Item" (JVal.arr [])
    match items with
    | .arr (x :: _) => some x
    | _ => none

/-! ## Row data model (post-`CSVParser.parse_file` dataframe row) -/

/-- One normalized CSV row.  `unitCost` and `totalAmount` hold the exact
decimals produced by `CSVParser._safe_parse_money`; `quantity` the coerced
integer. -/
structure Row where
  invoiceNo : String
  patientName : String
  patientId : String
  productService : String
  description : String
  isInsurance : String
  modeOfPayment : String
  quantity : Int
  unitCost : Dec
  totalAmount : Dec
  serviceDate : String

/-! ## Money normalization (`CSVParser._safe_parse_money`, `app.parse_money`) -/

/-- Keep only `0-9`, `.`, `-`. -/
def filterMoney (s : String) : String :=
  String.mk (s.data.filter (fun c => c.isDigit || c = '.' || c = '-'))

/-- `CSVParser._safe_parse_money`: total; any `Decimal` failure is caught. -/
def safe_parse_money (v : String) : Dec :=
  if v = "" then ⟨0, 0⟩
  else
    let s := filterMoney (pyStrip v)
    if s = "" ∨ s = "." ∨ s = "-" ∨ s = "-." then ⟨0, 0⟩
    else match parsePyDecimal s with
      | some q => q
      | none => ⟨0, 0⟩

/-- `app.parse_money` (the duplicate inside `app.process_csv_file`): the guard
only excludes residues `''`, `'.'`, `'-'`, so `Decimal(s)` can still raise
`InvalidOperation` (e.g. on `'--'`), which propagates to the caller. -/
def parse_money_app (v : String) : Except String Dec :=
  let s := filterMoney (pyStrip v)
  if s ≠ "" ∧ s ≠ "." ∧ s ≠ "-" then
    match parsePyDecimal s with
    | some q => .ok q
    | none => .error "InvalidOperation"
  else .ok ⟨0, 0⟩

/-- Modelled from the spec (§4.1 Money/Quantity Normalizer), word for word:
"strip every character not in the digit/`.`/`-` set; if the residue is empty
or is exactly `.` or `-`, return `0.00`; otherwise parse as exact decimal,
else return `0.00`". Used to compare the spec's algorithm with the code. -/
def spec_money_normalize (v : String) : Dec :=
  let s := filterMoney v
  if s = "" ∨ s = "." ∨ s = "-" then ⟨0, 0⟩
  else (parsePyDecimal s).getD ⟨0, 0⟩

/-! ## Insurance-flag normalization (`CSVParser._clean_data`, step (e)) -/

/-- The `Is Insurance?` pipeline: `.str.lower().str.strip()`, an EXACT-match
`replace` over the variant table, then `.str.capitalize()`. -/
def normalize_insurance_flag (v : String) : String :=
  let x := pyStrip (pyLower v)
  let y :=
    if x = "" ∨ x = "no" ∨ x = "n" then "no"
    else if x = "yes" ∨ x = "y" ∨ x = "true" then "yes"
    else x
  pyCapitalize y

/-! ## Classifier (`src/mapper.py`) and settings (`config/settings.py`) -/

/-- `config.settings.KNOWN_INSURANCES`, verbatim (including the duplicate). -/
def KNOWN_INSURANCES : List String :=
  ["JUBILEE INSURANCE", "CIC", "BRITAM", "SHA-SHIF", "MADISON INSURANCE",
   "OLD MUTUAL INSURANCE", "HERITAGE INSURANCE COMPANY LIMITED", "APA",
   "AAR INSURANCE", "MINET", "SHA-SHIF", "MUA", "Co-operative health insurance",
   "Kenbright insurance", "Byno8 insurance", "Kenya alliance", "UAP insurance",
   "PACIS INSURANCE", "Equity health insurance", "NHIF CIVIL SERVANT"]

/-- `TransactionMapper.extract_insurance_name`: split the FIRST row's
`Mode of Payment` on commas, strip each token, return the first token equal
(case-insensitively, via `.upper()`) to a known insurance. -/
def extract_insurance_name (g : List Row) : Option String :=
  match g.head? with
  | none => none
  | some r0 =>
    let payments := (pySplitComma r0.modeOfPayment).map pyStrip
    payments.findSome? (fun p =>
      if KNOWN_INSURANCES.any (fun ins => pyUpper p = pyUpper ins) then some p else none)

/-- `TransactionMapper.is_insurance_transaction`: some row has
`Is Insurance?` lowercasing to `"yes"`, AND an insurance name is extractable. -/
def is_insurance_transaction (g : List Row) : Bool :=
  if g.any (fun r => pyLower r.isInsurance = "yes") then
    (extract_insurance_name g).isSome
  else false

/-- `TransactionMapper.determine_transaction_type`. -/
def determine_transaction_type (g : List Row) : String :=
  if is_insurance_transaction g then "invoice" else "sales_receipt"

/-- A QuickBooks income-account reference `{"value", "name"}`. -/
structure AccountRef where
  value : String
  name : String
deriving DecidableEq, Repr

/-- Name table of `TransactionMapper.map_income_account`'s variation branch. -/
def variationName (acct : String) (normalizedPs : String) : String :=
  if acct = "3" then "Sales Revenue:Consultation Income"
  else if acct = "1150040042" then "Sales Revenue:Lab Tests"
  else if acct = "12" then "Sales Revenue:Gynaecology and Minor procedures"
  else if acct = "13" then "Sales Revenue:Other Requests"
  else if acct = "1150040041" then "Sales Revenue:Counselling"
  else "Sales Revenue:" ++ normalizedPs

/-- `TransactionMapper.map_income_account(product_service, description="")`:
exact match on the raw (stripped) category, then the typo-normalized
variation table, then description keywords only when the category is
empty/nan/none, else the default account `13`. -/
def map_income_account (product_service description : String) : AccountRef :=
  let ps := pyStrip product_service
  let desc := pyLower (pyStrip description)
  if ps = "Pharmacy" then ⟨"73", "Sales Revenue:Pharmacy Income"⟩
  else if ps = "Consultation" then ⟨"3", "Sales Revenue:Consultation Income"⟩
  else if ps = "Laboratory" then ⟨"1150040042", "Sales Revenue:Lab Tests"⟩
  else if ps = "Counselling" then ⟨"1150040041", "Sales Revenue:Counselling"⟩
  else if ps = "Gynaecology and Minor procedures" then
    ⟨"12", "Sales Revenue:Gynaecology and Minor procedures"⟩
  else if ps = "Other Request" then ⟨"13", "Sales Revenue:Other Requests"⟩
  else
    let normalized_ps := pyStrip (pyReplace (pyReplace (pyReplace
      (pyReplace ps "&" "and") "consult" "Consultation") "lab" "Laboratory") "gyn" "Gynaecology")
    let variation : Option String :=
      if normalized_ps = "Consultation Income" ∨ normalized_ps = "Consultation income" ∨
         normalized_ps = "consultation" then some "3"
      else if normalized_ps = "Lab Tests" ∨ normalized_ps = "laboratory" then some "1150040042"
      else if normalized_ps = "Gynaecology and Minor procedures" ∨
              normalized_ps = "Gynaecology & Minor procedures" ∨
              normalized_ps = "Gyn and Minor procedures" then some "12"
      else if normalized_ps = "Other Requests" ∨ normalized_ps = "Other requests" then some "13"
      else if normalized_ps = "Counselling" ∨ normalized_ps = "Counseling" then some "1150040041"
      else none
    match variation with
    | some acct => ⟨acct, variationName acct normalized_ps⟩
    | none =>
      if ps = "" ∨ pyLower ps = "nan" ∨ pyLower ps = "none" then
        if ["pharmacy", "inj", "tab", "caps", "syr", "cream", "suppos", "lotion",
            "dispense"].any (fun k => strContains desc k) then
          ⟨"73", "Sales Revenue:Pharmacy Income"⟩
        else if ["iud", "pap smear", "papsmear", "eua", "curretage", "minor procedure",
                 "insertion", "removal"].any (fun k => strContains desc k) then
          ⟨"12", "Sales Revenue:Gynaecology and Minor procedures"⟩
        else if ["delivery", "c-section", "caesarean", "theatre fee", "anesthetist",
                 "pediatrician", "admission", "ward", "nursing care"].any
                 (fun k => strContains desc k) then
          ⟨"13", "Sales Revenue:Other Requests"⟩
        else if ["ultrasound", "scan", "obs ", "pelvic", "fbs", "rbs", "u/a", "fhg",
                 "ogtt", "prolactin", "tvs"].any (fun k => strContains desc k) then
          ⟨"1150040042", "Sales Revenue:Lab Tests"⟩
        else if ["ctg", "histology", "speculum", "eua"].any (fun k => strContains desc k) then
          ⟨"13", "Sales Revenue:Other Requests"⟩
        else ⟨"13", "Sales Revenue:Other Requests"⟩
      else ⟨"13", "Sales Revenue:Other Requests"⟩

/-! ## Faithful remote states: Item, Customer, Invoice query endpoints -/

/-- A catalog item as stored remotely (`Id`, `Name`, `IncomeAccountRef.value`). -/
structure ItemDoc where
  id : String
  name : String
  incomeAccount : String
deriving DecidableEq, Repr

/-- Encode an item the way the query endpoint returns it. -/
def itemDocToJVal (it : ItemDoc) : JVal :=
  .obj [("Id", .str it.id), ("Name", .str it.name),
        ("IncomeAccountRef", .obj [("value", .str it.incomeAccount)])]

/-- QBO-side behaviour of the item query built by `find_item_by_name`:
return the full decoded body `{"QueryResponse": {...}}` with the items whose
name equals the unescaped literal. -/
def itemRemote (items : List ItemDoc) : Remote := fun sql =>
  match extractBetween sql "SELECT * FROM Item WHERE Name = '" "' AND Active = true" with
  | some esc =>
    let nm := pyReplace esc "''" "'"
    let hits := items.filter (fun it => it.name = nm)
    if hits.isEmpty then
      .ok (.obj [("QueryResponse", .obj [("maxResults", .num ⟨0, 0⟩)])])
    else
      .ok (.obj [("QueryResponse",
        .obj [("Item", .arr (hits.map itemDocToJVal)), ("maxResults", .num (Dec.ofInt hits.length))])])
  | none => .error "unsupported query"

/-- A customer as stored remotely. -/
structure CustomerDoc where
  id : String
  displayName : String
deriving DecidableEq, Repr

/-- Encode a customer the way the `SELECT Id, DisplayName` queries return it. -/
def customerDocToJVal (c : CustomerDoc) : JVal :=
  .obj [("Id", .str c.id), ("DisplayName", .str c.displayName)]

/-- QBO-side behaviour of the two customer query shapes issued by
`CustomerService` (exact `=` with MAXRESULTS 1, and case-insensitive
`LIKE '%...%'` with MAXRESULTS 5, per the code's own comment). -/
def customerRemote (cs : List CustomerDoc) : Remote := fun sql =>
  match extractBetween sql
      "SELECT Id, DisplayName FROM Customer WHERE DisplayName = '" "' MAXRESULTS 1" with
  | some esc =>
    let nm := pyReplace esc "''" "'"
    let hits := (cs.filter (fun c => c.displayName = nm)).take 1
    if hits.isEmpty then
      .ok (.obj [("QueryResponse", .obj [("maxResults", .num ⟨0, 0⟩)])])
    else
      .ok (.obj [("QueryResponse",
        .obj [("Customer", .arr (hits.map customerDocToJVal)), ("maxResults", .num (Dec.ofInt hits.length))])])
  | none =>
    match extractBetween sql
        "SELECT Id, DisplayName FROM Customer WHERE DisplayName LIKE '%" "%' MAXRESULTS 5" with
    | some esc =>
      let pat := pyReplace esc "''" "'"
      let hits := (cs.filter (fun c =>
        strContains (pyLower c.displayName) (pyLower pat))).take 5
      if hits.isEmpty then
        .ok (.obj [("QueryResponse", .obj [("maxResults", .num ⟨0, 0⟩)])])
      else
        .ok (.obj [("QueryResponse",
          .obj [("Customer", .arr (hits.map customerDocToJVal)),
                ("maxResults", .num (Dec.ofInt hits.length))])])
    | none => .error "unsupported query"

/-- An invoice document as stored remotely. -/
structure InvDoc where
  id : String
  syncToken : String
  docNumber : String
  line : List JVal

/-- Encode an invoice for the DocNumber query response. -/
def invDocToJVal (d : InvDoc) : JVal :=
  .obj [("Id", .str d.id), ("SyncToken", .str d.syncToken),
        ("DocNumber", .str d.docNumber), ("Line", .arr d.line)]

/-- QBO-side behaviour of `SELECT * FROM Invoice WHERE DocNumber = '...'`. -/
def invoiceRemote (st : List InvDoc) : Remote := fun sql =>
  match extractBetween sql "SELECT * FROM Invoice WHERE DocNumber = '" "'" with
  | some d =>
    let hits := st.filter (fun inv => inv.docNumber = d)
    if hits.isEmpty then
      .ok (.obj [("QueryResponse", .obj [("maxResults", .num ⟨0, 0⟩)])])
    else
      .ok (.obj [("QueryResponse",
        .obj [("Invoice", .arr (hits.map invDocToJVal)), ("maxResults", .num (Dec.ofInt hits.length))])])
  | none => .error "unsupported query"

/-! ## Customer lookup (`src/customer_service.py`) -/

/-- Separator class of `re.split(r'[\s,.-]+', ...)`. -/
def isSepChar (c : Char) : Bool := c.isWhitespace || c = ',' || c = '.' || c = '-'

/-- One `LIKE '%variant%' MAXRESULTS 5` probe; first hit's id. -/
def likeSearchCustomer (remote : Remote) (variant : String) : Option String :=
  let esc := pyReplace variant "'" "''"
  let q := "SELECT Id, DisplayName FROM Customer WHERE DisplayName LIKE '%" ++ esc ++
           "%' MAXRESULTS 5"
  let customers := (query_safe remote q).getD "Customer" (JVal.arr [])
  match customers with
  | .arr (c :: _) => asStr (c.get? "Id")
  | _ => none

/-- `CustomerService.get_customer_id_by_name`: exact `=` query first (reading
`data.get('Customer', [])` — the shape `_query_safe` actually returns), then
`LIKE '%...%'` over the three `" ID "` case variants; first partial match wins. -/
def get_customer_id_by_name (remote : Remote) (full_display_name : String) : Option String :=
  let escaped := pyReplace full_display_name "'" "''"
  let query_exact := "SELECT Id, DisplayName FROM Customer WHERE DisplayName = '" ++ escaped ++
                     "' MAXRESULTS 1"
  let data := query_safe remote query_exact
  let exactHit := match data.getD "Customer" (JVal.arr []) with
    | .arr (c :: _) => asStr (c.get? "Id")
    | _ => none
  match exactHit with
  | some cid => some cid
  | none =>
    let variations := [full_display_name,
      pyReplace full_display_name " ID " " Id ",
      pyReplace full_display_name " ID " " id "]
    variations.findSome? (likeSearchCustomer remote)

/-- `CustomerService._fallback_search_by_components`: tokenize on
`[\s,.-]+`, put numeric tokens first, probe the first 4 terms with `LIKE`;
inside a hit list prefer an entry containing the term, else take the first. -/
def fallback_search_by_components (remote : Remote) (full_display_name : String) :
    Option String :=
  let tokens := ((splitWhenChars isSepChar full_display_name.data).map String.mk).filter
    (fun t => t ≠ "")
  let numeric_tokens := tokens.filter (fun t => t.data.all Char.isDigit)
  let search_terms := (numeric_tokens ++ tokens).take 4
  search_terms.findSome? (fun term =>
    let esc := pyReplace term "'" "''"
    let q := "SELECT Id, DisplayName FROM Customer WHERE DisplayName LIKE '%" ++ esc ++
             "%' MAXRESULTS 5"
    let customers := (query_safe remote q).getD "Customer" (JVal.arr [])
    match customers with
    | .arr (c :: rest) =>
      (match (c :: rest).findSome? (fun cj =>
          if strContains (pyLower (asStrD (cj.get? "DisplayName") "")) (pyLower term) then
            asStr (cj.get? "Id")
          else none) with
       | some cid => some cid
       | none => asStr (c.get? "Id"))
    | _ => none)

/-! ## Invoice upsert (`src/invoice_service.py`) -/

/-- `max([int(l.get("Id", 0)) for l in current_lines], default=-1)`. -/
def maxLineId (ls : List JVal) : Int :=
  ls.foldl (fun acc l => max acc (asIntD (l.get? "Id") 0)) (-1)

/-- `InvoiceService.create_or_update_invoice` as a remote-state transformer.
The service queries by DocNumber via `query` (= `_query_safe`), then checks
`existing.get("QueryResponse", {}).get("Invoice")` — a second unwrap of the
already-unwrapped result.  Found branch: renumber the new lines after the
current maximum line id and submit a sparse update with the merged list.
Not-found branch: create a fresh invoice document (fresh id, SyncToken 0). -/
def create_or_update_invoice (st : List InvDoc) (group : List Row) (customer_id : String)
    (lines : List JVal) : List InvDoc × JVal :=
  let doc_number := pyStrip ((group.head?.map Row.invoiceNo).getD "")
  let existing := qbQuery (invoiceRemote st)
    ("SELECT * FROM Invoice WHERE DocNumber = '" ++ doc_number ++ "'")
  let foundList := (existing.getD "QueryResponse" (JVal.obj [])).getD "Invoice" JVal.null
  if existing.truthy && foundList.truthy then
    match foundList with
    | .arr (inv :: _) =>
      let invoice_id := asStrD (inv.get? "Id") ""
      let current_lines := match inv.getD "Line" (JVal.arr []) with
        | .arr ls => ls
        | _ => []
      let max_id := maxLineId current_lines
      let new_lines := ((List.range lines.length).zip lines).map (fun p =>
        (p.2.set "Id" (.num (Dec.ofInt (max_id + 1 + (p.1 : Int))))).set "DetailType"
          (.str "SalesItemLineDetail"))
      let st2 := st.map (fun d =>
        if d.id = invoice_id then { d with line := current_lines ++ new_lines } else d)
      (st2, .obj [("Invoice", .obj [("Id", .str invoice_id)])])
    | _ => (st, JVal.null)
  else
    let newId := toString (st.length + 1)
    let _ := customer_id  -- CustomerRef of the create payload
    (st ++ [⟨newId, "0", doc_number, lines⟩], .obj [("Invoice", .obj [("Id", .str newId)])])

/-! ## Item resolution (`src/product_service.py`) -/

/-- Outcome of one `create_item` POST as seen by the retry loop. -/
inductive CreateOutcome where
  | ok (id : String)
  | httpError (status : Nat) (text : String)
  | netError

/-- `ProductService._robust_find_item`: retry `find_item_by_name` up to
`max_retries` times (with backoff, irrelevant to the result). -/
def robust_find_item (remote : Remote) (name : String) : Nat → Option JVal
  | 0 => none
  | n + 1 =>
    match find_item_by_name remote name with
    | some it => some it
    | none => robust_find_item remote name n

/-- The `for attempt in range(1, max_attempts + 1)` creation loop of
`find_or_create_product`.  `left` is the number of attempts still allowed;
the last attempt is `left = 0` inside the body. -/
def create_item_attempts (createResp : Nat → CreateOutcome) (remote : Remote)
    (service_name final_name : String) : Nat → Nat → Except String String
  | _, 0 => .error ("Exhausted all attempts to create/find item for '" ++ service_name ++ "'")
  | attemptNo, left + 1 =>
    match createResp attemptNo with
    | .ok id => .ok id
    | .netError =>
      if left = 0 then .error "network error on final attempt"
      else create_item_attempts createResp remote service_name final_name (attemptNo + 1) left
    | .httpError status text =>
      if status = 429 then
        -- `random` is never imported in product_service.py, so the 429
        -- branch raises NameError before it can back off.
        .error "NameError: name 'random' is not defined"
      else if 500 ≤ status then
        create_item_attempts createResp remote service_name final_name (attemptNo + 1) left
      else if strContains text "Duplicate" || strContains text "code=6240" ||
              strContains text "Id=" then
        match extractIdEq text.data with
        | some eid => .ok eid
        | none =>
          match robust_find_item remote service_name 10 with
          | some found => .ok (asStrD (found.get? "Id") "")
          | none =>
            if 400 ≤ status ∧ status < 500 ∧ left = 0 then
              .error ("Permanent QB error creating item '" ++ final_name ++ "'")
            else
              create_item_attempts createResp remote service_name final_name (attemptNo + 1) left
      else if 400 ≤ status ∧ status < 500 ∧ left = 0 then
        .error ("Permanent QB error creating item '" ++ final_name ++ "'")
      else create_item_attempts createResp remote service_name final_name (attemptNo + 1) left

/-- `ProductService.find_or_create_product`.  `cache` is the per-run
`item_cache`, `createResp` the remote's reply to the n-th `create_item`
POST, `timestamp` the millisecond clock read used for the uniqueness
suffix.  The item payload's `Name`/`Description` fields not needed by the
claims (the swapped `new_description`) are not tracked. -/
def find_or_create_product (row : Row) (cache : List (String × String)) (remote : Remote)
    (createResp : Nat → CreateOutcome) (timestamp : Nat) : Except String String :=
  let product0 := pyStrip row.productService
  let description0 := pyStrip row.description
  let original_product := pyLower product0
  let description := if description0 = "" ∨ description0 = "nan" then
    "No description provided" else description0
  let service_name := collapseWs description
  let sanitized0 := String.mk (service_name.data.map (fun c =>
    if c.isAlphanum || c = ' ' || c = '.' || c = '-' || c = '_' then c else ' '))
  let sanitized_base := String.mk ((pyTitle (collapseWs sanitized0)).data.take 90)
  let desired := map_income_account original_product ""
  match cache.lookup sanitized_base with
  | some cached => .ok cached
  | none =>
    let existing := robust_find_item remote service_name 8
    let createPath := fun (unique_suffix : String) =>
      let final_name := String.mk ((sanitized_base ++ unique_suffix).data.take 100)
      create_item_attempts createResp remote service_name final_name 1 7
    match existing with
    | some item =>
      if asStr ((item.getD "IncomeAccountRef" (JVal.obj [])).get? "value") =
         some desired.value then
        .ok (asStrD (item.get? "Id") "")
      else
        -- wrong income account: create under a timestamp-suffixed name
        createPath ("_" ++ toString timestamp)
    | none => createPath ""

/-! ## Document builder (`app.build_lines`, `src/main.py` inline builder) -/

/-- A deferred pharmacy stock adjustment collected by `build_lines`. -/
structure InvAdj where
  item_id : String
  real_qty : Int
  description : String

/-- One iteration of the `app.build_lines` row loop: `None` when the row's
total amount is ≤ 0 (the `continue`), else the line dict exactly as built.
`resolveItem` abstracts `product_service.find_or_create_product`, which is
called before the zero check but only contributes the item id.  For an
invoice: quantity forced to 1, unit price the raw CSV total, amount the
total quantized to 2 decimals; for cash: real quantity and quantized unit
cost. -/
def build_line_row (resolveItem : Row → String) (for_invoice : Bool) (row : Row) :
    Option JVal :=
  let item_id := resolveItem row
  let qty_csv : Dec := if row.quantity = 0 then Dec.ofInt 1 else Dec.ofInt row.quantity
  let total_amount_csv := row.totalAmount
  let unit_cost := row.unitCost
  let description := pyStrip row.description
  if total_amount_csv ≤ Dec.ofInt 0 then none
  else
    let qty_to_show : Dec :=
      if for_invoice then Dec.ofInt 1
      else if Dec.ofInt 0 < qty_csv then qty_csv else Dec.ofInt 1
    let unit_price : Dec := if for_invoice then total_amount_csv else pyRound2 unit_cost
    let amount : Dec :=
      if for_invoice then pyRound2 total_amount_csv else pyRound2 (qty_csv.mul unit_cost)
    some (.obj [("DetailType", .str "SalesItemLineDetail"),
                ("Amount", .num amount),
                ("Description", .str description),
                ("SalesItemLineDetail", .obj
                  [("ItemRef", .obj [("value", .str item_id)]),
                   ("Qty", .num qty_to_show),
                   ("UnitPrice", .num unit_price),
                   ("TaxCodeRef", .obj [("value", .str "6")])])])

/-- `app.build_lines`.  Modelled from the spec for the single missing piece:
`product_service.is_pharmacy_item` is referenced here but defined nowhere in
the sources; the spec only records that pharmacy insurance rows feed a stock
adjustment side channel, so the predicate is abstracted as the
`is_pharmacy_item` parameter.  The adjustments are monkey-patched onto the
group and never consumed by `invoice_service` in the sources. -/
def build_lines (resolveItem : Row → String) (is_pharmacy_item : Row → Bool)
    (for_invoice : Bool) (group : List Row) : List JVal × List InvAdj :=
  let lines := group.filterMap (build_line_row resolveItem for_invoice)
  let adjustments :=
    if for_invoice then
      (group.filter (fun r =>
        decide (Dec.ofInt 0 < r.totalAmount) && is_pharmacy_item r &&
        decide (1 < (if r.quantity = 0 then 1 else r.quantity)))).map
        (fun r => InvAdj.mk (resolveItem r) (if r.quantity = 0 then 1 else r.quantity)
          (pyStrip r.description))
    else []
  (lines, adjustments)

/-- The superseded inline line builder of `src/main.py process_csv_file`
(lines 79–119): the skip test is `qty * unit_cost == 0`, NOT the row's
total amount; insurance markup on selected categories; amount recomputed. -/
def main_build_lines (resolveItem : Row → String) (group : List Row) : List JVal :=
  group.filterMap (fun row =>
    let item_id := resolveItem row
    let qty : Dec := Dec.ofInt row.quantity
    let unit_price := row.unitCost
    let calculated_amount := qty.mul unit_price
    if calculated_amount.m = 0 then none
    else
      let is_insurance_row := pyLower (pyStrip row.isInsurance) = "yes"
      let category := pyStrip row.productService
      let markup : Option Dec :=
        if category = "Pharmacy" then some ⟨135, 2⟩
        else if category = "Laboratory" then some ⟨12, 1⟩
        else if category = "Radiology" then some ⟨125, 2⟩
        else none
      let adjusted_unit_price := match markup with
        | some m => if is_insurance_row then pyRound2 (unit_price.mul m) else unit_price
        | none => unit_price
      let amount2 := pyRound2 (qty.mul adjusted_unit_price)
      some (.obj [("DetailType", .str "SalesItemLineDetail"),
                  ("Amount", .num amount2),
                  ("SalesItemLineDetail", .obj
                    [("ItemRef", .obj [("value", .str item_id)]),
                     ("Qty", .num qty),
                     ("UnitPrice", .num adjusted_unit_price)]),
                  ("Description", .str row.description)]))

/-- Qty of a built line. -/
def lineQty (j : JVal) : Option Dec :=
  match (j.getD "SalesItemLineDetail" .null).get? "Qty" with
  | some (.num q) => some q
  | _ => none

/-- UnitPrice of a built line. -/
def lineUnitPrice (j : JVal) : Option Dec :=
  match (j.getD "SalesItemLineDetail" .null).get? "UnitPrice" with
  | some (.num q) => some q
  | _ => none

/-- Description of a built line. -/
def lineDesc (j : JVal) : Option String :=
  match j.get? "Description" with
  | some (.str s) => some s
  | _ => none

/-! ## Batch orchestrator (`app.process_csv_file`, lines 144–227) -/

/-- What processing one invoice group produced: the success path's
transaction id, type and emitted log lines, or the caught exception's
message (`str(e)`). -/
inductive GroupOutcome where
  | ok (txnId : String) (ttype : String) (logLines : List String)
  | fail (msg : String)

/-- One entry of the per-invoice `results` list. -/
structure ResultEntry where
  invoice : String
  status : String
  txnId : Option String
  ttype : Option String
  error : Option String
deriving DecidableEq, Repr

/-- The `results.append(...)` of the try/except around one group. -/
def group_result (p : String × GroupOutcome) : ResultEntry :=
  match p.2 with
  | .ok tid tt _ => ⟨p.1, "success", some tid, some tt, none⟩
  | .fail m => ⟨p.1, "error", none, none, some m⟩

/-- The log lines one group's iteration emits (`logger.error` on failure). -/
def group_log (p : String × GroupOutcome) : List String :=
  match p.2 with
  | .ok _ _ ls => ls
  | .fail m => ["Error on invoice " ++ p.1 ++ ": " ++ m]

/-- The fatal-line scan of `app.process_csv_file`'s log post-processing. -/
def fatal_phrase (line : String) : Bool :=
  strContains line "Failed to refresh QuickBooks token" ||
  strContains line "400 Client Error"

/-- The orchestrator core: every group is processed inside try/except (a
failure is recorded and the loop continues), then the collected log is
scanned for fatal phrases and the boolean flag is `not has_real_error`. -/
def process_batch (preLines : List String) (groups : List (String × GroupOutcome)) :
    Bool × List ResultEntry :=
  let results := groups.map group_result
  let logLines := preLines ++ (groups.map group_log).flatten
  let has_real_error := logLines.any fatal_phrase
  (!has_real_error, results)

/-! ## Concrete inputs used by the claim theorems -/

/-- A parsed insurance row for invoice number `123`. -/
def c1Row : Row :=
  ⟨"123", "Jane Doe", "77", "Pharmacy", "Dressing", "Yes", "CIC", 1,
   ⟨100, 0⟩, ⟨330, 0⟩, "2024-01-02"⟩

/-- The line `build_lines` produces for `c1Row` (invoice kind). -/
def c1Line : JVal :=
  .obj [("DetailType", .str "SalesItemLineDetail"), ("Amount", .num ⟨330, 0⟩),
        ("Description", .str "Dressing"),
        ("SalesItemLineDetail", .obj
          [("ItemRef", .obj [("value", .str "11")]), ("Qty", .num ⟨1, 0⟩),
           ("UnitPrice", .num ⟨330, 0⟩), ("TaxCodeRef", .obj [("value", .str "6")])])]

/-- Remote catalog holding one item `Dressing` posting to account `73`. -/
def c3Items : List ItemDoc := [⟨"5", "Dressing", "73"⟩]

/-- A row whose category maps to account `13` but whose sanitized name
collides with the remote `Dressing` item. -/
def c3Row : Row :=
  ⟨"123", "Jane Doe", "77", "Pharmacy", "dressing", "Yes", "CIC", 1,
   ⟨100, 0⟩, ⟨330, 0⟩, "2024-01-02"⟩

/-- The claim's own insurance scenario row, with a 3-decimal total so the
rounding clause is visible: quantity 3, unit cost 100.00, total 330.005. -/
def c5Row : Row :=
  ⟨"1001", "Jane Doe", "7", "Pharmacy", "Dressing", "Yes", "CIC", 3,
   ⟨100, 0⟩, ⟨330005, 3⟩, "2024-01-02"⟩

/-- The claim's literal scenario row: quantity 3, unit cost 100.00, total 330.00. -/
def c5wRow : Row :=
  ⟨"1001", "Jane Doe", "7", "Pharmacy", "Dressing", "Yes", "CIC", 3,
   ⟨100, 0⟩, ⟨330, 0⟩, "2024-01-02"⟩

/-- A zero-total row with nonzero quantity × unit cost. -/
def c8Row : Row :=
  ⟨"1001", "Jane Doe", "7", "Consultation", "X", "No", "Cash", 1,
   ⟨100, 0⟩, ⟨0, 0⟩, "2024-01-02"⟩

/-- Remote customer whose display name strictly contains the search name. -/
def c10Cs : List CustomerDoc := [⟨"9", "Alice Smith ID 77 Estate"⟩]

/-- Remote customer found only through the per-token fallback. -/
def c10Cs3 : List CustomerDoc := [⟨"4", "Bob 12345 Jones"⟩]

/-- Batch scenario: 3 groups, group 2 fails customer reconciliation. -/
def c2Groups : List (String × GroupOutcome) :=
  [("1001", .ok "501" "invoice" ["Invoice created"]),
   ("1002", .fail "Failed to create or find customer after all retries: John Doe Id 77"),
   ("1003", .ok "502" "sales_receipt" ["Sales Receipt created"])]

/-- The pre-loop log lines of the batch scenario. -/
def c2Pre : List String :=
  ["Successfully parsed CSV with 6 rows",
   "Found 3 unique invoices - starting chunked processing"]

/-- The trimmed comma tokens of the group's first-row payment mode. -/
def payment_tokens (g : List Row) : List String :=
  (pySplitComma ((g.head?.map Row.modeOfPayment).getD "")).map pyStrip

/-- Case-insensitive membership in `KNOWN_INSURANCES` (via `.upper()`). -/
def insurer_match (p : String) : Bool :=
  KNOWN_INSURANCES.any (fun ins => pyUpper p = pyUpper ins)

/-- Group with all rows cash. -/
def c4NoGroup : List Row :=
  [⟨"1", "J", "7", "p", "d", "No", "CIC", 1, ⟨1, 0⟩, ⟨1, 0⟩, "x"⟩]

/-- Group flagged insured with a known insurer token. -/
def c4YesGroup : List Row :=
  [⟨"1", "J", "7", "p", "d", "Yes", "MPESA, cic", 1, ⟨1, 0⟩, ⟨1, 0⟩, "x"⟩]

/-- Group flagged insured with no known insurer token. -/
def c4DegradeGroup : List Row :=
  [⟨"1", "J", "7", "p", "d", "Yes", "MPESA", 1, ⟨1, 0⟩, ⟨1, 0⟩, "x"⟩]

/-! ## Helper lemmas -/

/-- Order against zero reduces to the mantissa sign. -/
theorem dec_le_zero (d : Dec) : d ≤ Dec.ofInt 0 ↔ d.m ≤ 0 := by
  show d.m * pow10 0 ≤ 0 * pow10 d.e ↔ d.m ≤ 0
  simp [pow10]

/-- Strict order against zero reduces to the mantissa sign. -/
theorem dec_zero_lt (d : Dec) : Dec.ofInt 0 < d ↔ 0 < d.m := by
  show 0 * pow10 d.e < d.m * pow10 0 ↔ 0 < d.m
  simp [pow10]

/-- Whitespace chars are not money chars. -/
theorem money_of_ws {c : Char} (h : c.isWhitespace = true) :
    (c.isDigit || c = '.' || c = '-') = false := by
  simp only [Char.isWhitespace, Bool.or_eq_true, decide_eq_true_eq] at h
  rcases h with ((h | h) | h) | h <;> subst h <;> decide

/-- Dropping a prefix of non-`p` chars does not change a `p`-filter. -/
theorem filter_dropWhile {p q : Char → Bool} (hpq : ∀ c, q c = true → p c = false) :
    ∀ l : List Char, (l.dropWhile q).filter p = l.filter p := by
  intro l
  induction l with
  | nil => rfl
  | cons c rest ih =>
    by_cases hq : q c = true
    · rw [List.dropWhile_cons_of_pos hq, ih, List.filter_cons_of_neg]
      simp [hpq c hq]
    · rw [List.dropWhile_cons_of_neg hq]

/-- The money filter ignores Python `strip`. -/
theorem filterMoney_strip (v : String) : filterMoney (pyStrip v) = filterMoney v := by
  unfold filterMoney pyStrip stripChars
  congr 1
  rw [List.filter_reverse, filter_dropWhile (fun c h => money_of_ws h),
    List.filter_reverse, filter_dropWhile (fun c h => money_of_ws h),
    List.reverse_reverse]

/-- `findSome?` hits when some member maps to `some`. -/
theorem findSome_isSome {α β : Type} {f : α → Option β} :
    ∀ {l : List α} {a : α}, a ∈ l → (f a).isSome = true → (l.findSome? f).isSome = true := by
  intro l
  induction l with
  | nil => intro a h; cases h
  | cons x xs ih =>
    intro a hmem hsome
    rw [List.findSome?_cons]
    cases hfx : f x with
    | some b => rfl
    | none =>
      rcases List.mem_cons.mp hmem with rfl | hmem2
      · rw [hfx] at hsome; cases hsome
      · exact ih hmem2 hsome

/-- `findSome?` misses when every member maps to `none`. -/
theorem findSome_none {α β : Type} {f : α → Option β} :
    ∀ {l : List α}, (∀ a ∈ l, f a = none) → l.findSome? f = none := by
  intro l
  induction l with
  | nil => intro _; rfl
  | cons x xs ih =>
    intro h
    rw [List.findSome?_cons, h x (List.mem_cons_self x xs)]
    exact ih (fun a ha => h a (List.mem_cons_of_mem x ha))

/-- A `filterMap` is unchanged by pre-filtering away `none`-rows. -/
theorem filterMap_filter {α β : Type} {f : α → Option β} {p : α → Bool}
    (hp : ∀ a, p a = false → f a = none) :
    ∀ l : List α, l.filterMap f = (l.filter p).filterMap f := by
  intro l
  induction l with
  | nil => rfl
  | cons x xs ih =>
    by_cases hx : p x = true
    · rw [List.filter_cons_of_pos hx, List.filterMap_cons, List.filterMap_cons]
      cases f x <;> simp [ih]
    · rw [List.filter_cons_of_neg hx, List.filterMap_cons,
        hp x (Bool.eq_false_iff.mpr hx), ih]

/-- A prefix check only inspects the first `p.length` chars. -/
theorem isPrefixL_trunc : ∀ (p c r : List Char), p.length ≤ c.length →
    isPrefixL p (c ++ r) = isPrefixL p c := by
  intro p
  induction p with
  | nil => intro c r _; rfl
  | cons x xs ih =>
    intro c r hlen
    cases c with
    | nil => simp at hlen
    | cons y ys =>
      have h2 := ih ys r (Nat.le_of_succ_le_succ hlen)
      simp only [List.cons_append, isPrefixL]
      simp [h2]

/-- A list is a prefix of itself followed by anything. -/
theorem isPrefixL_self_append : ∀ (p r : List Char), isPrefixL p (p ++ r) = true := by
  intro p
  induction p with
  | nil => intro r; rfl
  | cons x xs ih => intro r; simp [isPrefixL, ih]

/-- `extractBetween` recovers the middle of a framed string. -/
theorem extractBetween_append (pre mid suf : String) :
    extractBetween (pre ++ mid ++ suf) pre suf = some mid := by
  have hdata : (pre ++ mid ++ suf).data = pre.data ++ (mid.data ++ suf.data) := by
    cases pre; cases mid; cases suf
    simp [String.append]
  have hpre : isPrefixL pre.data (pre ++ mid ++ suf).data = true := by
    rw [hdata]; exact isPrefixL_self_append pre.data (mid.data ++ suf.data)
  unfold extractBetween
  rw [if_pos hpre, hdata, List.drop_left]
  have hsuf : isPrefixL suf.data.reverse (mid.data ++ suf.data).reverse = true := by
    rw [List.reverse_append]; exact isPrefixL_self_append _ _
  simp only [hsuf, if_true]
  have hlen : (mid.data ++ suf.data).length - suf.data.length = mid.data.length := by
    simp
  rw [hlen, List.take_left]

/-- When a pattern occurs nowhere, `replace` is the identity. -/
theorem replaceChars_absent {pat rep : List Char} :
    ∀ (fuel : Nat) (l : List Char), containsL pat l = false →
      replaceChars pat rep fuel l = l := by
  intro fuel
  induction fuel with
  | zero => intro l _; cases l <;> rfl
  | succ n ih =>
    intro l hcon
    cases l with
    | nil => rfl
    | cons c rest =>
      unfold containsL at hcon
      rw [Bool.or_eq_false_iff] at hcon
      unfold replaceChars
      rw [if_neg, ih rest hcon.2]
      simp [hcon.1]

/-- When a pattern occurs nowhere in a string, `str.replace` is the identity. -/
theorem pyReplace_absent {s pat rep : String} (h : strContains s pat = false) :
    pyReplace s pat rep = s := by
  unfold pyReplace
  rw [replaceChars_absent s.data.length s.data h]

/-- A two-char pattern needs its first char. -/
theorem containsL_pair {a : Char} :
    ∀ l : List Char, containsL [a] l = false → containsL [a, a] l = false := by
  intro l
  induction l with
  | nil => intro _; rfl
  | cons c rest ih =>
    intro h
    unfold containsL at h ⊢
    rw [Bool.or_eq_false_iff] at h
    rw [Bool.or_eq_false_iff]
    refine ⟨?_, ih h.2⟩
    have h1 : isPrefixL [a] (c :: rest) = false := h.1
    simp only [isPrefixL] at h1 ⊢
    rcases Bool.and_eq_false_iff.mp h1 with h2 | h2
    · simp [h2]
    · cases h2

/-- `head?` is unchanged by `take` with a positive count. -/
theorem head_take {α : Type} (l : List α) (n : Nat) :
    (l.take (n + 1)).head? = l.head? := by
  cases l <;> rfl

/-! ## Claim theorems -/

/-- C1: the spec says `create_or_update_invoice` is an idempotent upsert —
the second call with the same invoice number finds the document by DocNumber
and appends, never creating two documents for one invoice number.  Evaluating
the code on the failing input instead shows: starting from an empty remote
state, two identical calls leave TWO invoice documents with DocNumber `123`,
each holding the one line (nothing was appended) — because `_query_safe`
already unwrapped `QueryResponse` and the service unwraps again, so the
found-branch can never fire. -/
theorem C1_upsert_creates_duplicate_docs :
    ((create_or_update_invoice [] [c1Row] "10" [c1Line]).1.filter
      (fun d => d.docNumber = "123")).length = 1 ∧
    (((create_or_update_invoice
        (create_or_update_invoice [] [c1Row] "10" [c1Line]).1 [c1Row] "10" [c1Line]).1).filter
      (fun d => d.docNumber = "123")).length = 2 ∧
    ((create_or_update_invoice
        (create_or_update_invoice [] [c1Row] "10" [c1Line]).1 [c1Row] "10" [c1Line]).1).map
      (fun d => d.line.length) = [1, 1] := by
  refine ⟨by decide, by decide, by decide⟩

/-- C3: the spec says item resolution never returns the id of an item bound
to a different income account.  Evaluating the code on the failing input:
the remote catalog holds item `5` (`Dressing`, account `73`), the row's
category maps to account `13`; `find_item_by_name` never finds the item (the
double `QueryResponse` unwrap), creation is rejected as a duplicate naming
`Id=5` in the fault text, and the resolver returns `5` — an item whose
account `73` differs from the desired `13` — contradicting the function's
own docstring ("always returns correct item with right income account"). -/
theorem C3_resolver_returns_wrong_account_item :
    (find_item_by_name (itemRemote c3Items) "dressing").isNone = true ∧
    find_or_create_product c3Row [] (itemRemote c3Items)
      (fun _ => .httpError 400 "Duplicate Name Exists Error : Id=5") 0 = .ok "5" ∧
    (map_income_account (pyLower (pyStrip c3Row.productService)) "").value = "13" ∧
    c3Items = [⟨"5", "Dressing", "73"⟩] ∧ ("73" : String) ≠ "13" := by
  refine ⟨by decide, by rfl, by decide, rfl, by decide⟩

/-- C2: every group's exception is caught and recorded as an error entry for
that group only — the results list always has one entry per group, statuses
mirror the per-group outcomes (siblings unaffected) — and the batch success
flag is exactly the absence of a fatal log phrase.  In the concrete 3-group
scenario where group 2 fails customer reconciliation, the batch reports
`success = true` with statuses success/error/success. -/
theorem C2_batch_partial_failure :
    (∀ (pre : List String) (groups : List (String × GroupOutcome)),
      (process_batch pre groups).2.length = groups.length ∧
      (process_batch pre groups).2.map ResultEntry.status =
        groups.map (fun p => match p.2 with
          | .ok _ _ _ => "success"
          | .fail _ => "error") ∧
      (process_batch pre groups).1 =
        !((pre ++ (groups.map group_log).flatten).any fatal_phrase)) ∧
    (process_batch c2Pre c2Groups).1 = true ∧
    (process_batch c2Pre c2Groups).2.map ResultEntry.status =
      ["success", "error", "success"] ∧
    (process_batch c2Pre c2Groups).2.map ResultEntry.invoice = ["1001", "1002", "1003"] := by
  refine ⟨fun pre groups => ⟨?_, ?_, rfl⟩, by decide, by decide, by decide⟩
  · simp [process_batch]
  · simp only [process_batch, List.map_map]
    refine List.map_congr_left (fun p _ => ?_)
    cases p with
    | mk n out => cases out <;> rfl

/-- C4: classification of an invoice group.  All rows `"No"` →
`sales_receipt`; at least one `"Yes"` row and a first-row payment-mode token
case-insensitively equal to a known insurer → `invoice`; a `"Yes"` row but
no matching token → `sales_receipt`. -/
theorem C4_classifier :
    (∀ g : List Row, (∀ r ∈ g, r.isInsurance = "No") →
      determine_transaction_type g = "sales_receipt") ∧
    (∀ g : List Row, (∃ r ∈ g, r.isInsurance = "Yes") →
      (∃ p ∈ payment_tokens g, insurer_match p = true) →
      determine_transaction_type g = "invoice") ∧
    (∀ g : List Row, (∃ r ∈ g, r.isInsurance = "Yes") →
      (∀ p ∈ payment_tokens g, insurer_match p = false) →
      determine_transaction_type g = "sales_receipt") := by
  have hayes : ∀ (g : List Row) (r : Row), r ∈ g → r.isInsurance = "Yes" →
      (g.any (fun r => pyLower r.isInsurance = "yes")) = true := by
    intro g r hm hy
    exact List.any_eq_true.mpr ⟨r, hm, by rw [hy]; decide⟩
  have htokens : ∀ (r0 : Row) (rest : List Row),
      payment_tokens (r0 :: rest) = (pySplitComma r0.modeOfPayment).map pyStrip := by
    intro r0 rest; rfl
  refine ⟨?_, ?_, ?_⟩
  · intro g h
    have hno : (g.any (fun r => pyLower r.isInsurance = "yes")) = false := by
      rw [List.any_eq_false]
      intro r hr
      rw [h r hr]
      decide
    unfold determine_transaction_type is_insurance_transaction
    rw [hno]
    rfl
  · intro g hyes htok
    obtain ⟨r, hm, hy⟩ := hyes
    obtain ⟨p, hp, hmatch⟩ := htok
    cases g with
    | nil => cases hm
    | cons r0 rest =>
      have hp2 : p ∈ (pySplitComma r0.modeOfPayment).map pyStrip := by
        rw [htokens r0 rest] at hp
        exact hp
      have hmatch2 : (KNOWN_INSURANCES.any fun ins => pyUpper p = pyUpper ins) = true :=
        hmatch
      have hsome : (extract_insurance_name (r0 :: rest)).isSome = true := by
        unfold extract_insurance_name
        simp only [List.head?_cons]
        exact findSome_isSome hp2 (by simp [hmatch2])
      unfold determine_transaction_type is_insurance_transaction
      rw [hayes (r0 :: rest) r hm hy, if_pos rfl, hsome]
      rfl
  · intro g hyes htok
    obtain ⟨r, hm, hy⟩ := hyes
    cases g with
    | nil => cases hm
    | cons r0 rest =>
      have hnone : extract_insurance_name (r0 :: rest) = none := by
        unfold extract_insurance_name
        simp only [List.head?_cons]
        refine findSome_none (fun p hp => ?_)
        have hm2 : insurer_match p = false := htok p (by rw [htokens r0 rest]; exact hp)
        unfold insurer_match at hm2
        simp [hm2]
      unfold determine_transaction_type is_insurance_transaction
      rw [hayes (r0 :: rest) r hm hy, if_pos rfl, hnone]
      rfl

/-- C4 witness: the three classifier branches at concrete groups. -/
theorem C4_classifier_witness :
    determine_transaction_type c4NoGroup = "sales_receipt" ∧
    determine_transaction_type c4YesGroup = "invoice" ∧
    determine_transaction_type c4DegradeGroup = "sales_receipt" := by
  refine ⟨?_, ?_, ?_⟩
  · refine C4_classifier.1 c4NoGroup ?_
    intro r hr
    rw [List.mem_singleton.mp hr]
  · refine C4_classifier.2.1 c4YesGroup ⟨_, List.mem_singleton.mpr rfl, rfl⟩ ?_
    exact ⟨"cic", by decide, by decide⟩
  · refine C4_classifier.2.2 c4DegradeGroup ⟨_, List.mem_singleton.mpr rfl, rfl⟩ ?_
    decide

/-- C5 counterexample: at a concrete insurance row with quantity 3, unit
cost 100.00, total 330.005 and description `Dressing`, the built line's unit
price is the raw total `330.005` — not the half-up 2-decimal rounding
`330.01` the claim requires — and its description is `Dressing`, which does
not contain `"Qty: 3"`. -/
theorem C5_counterexample :
    c5Row.quantity = 3 ∧ c5Row.totalAmount = ⟨330005, 3⟩ ∧
    (build_line_row (fun _ => "11") true c5Row).map lineQty =
      some (some (Dec.ofInt 1)) ∧
    (build_line_row (fun _ => "11") true c5Row).map lineUnitPrice =
      some (some ⟨330005, 3⟩) ∧
    ¬ Dec.eqv ⟨330005, 3⟩ (roundHalfUp2 ⟨330005, 3⟩) ∧
    (build_line_row (fun _ => "11") true c5Row).map lineDesc =
      some (some "Dressing") ∧
    strContains "Dressing" "Qty: 3" = false := by
  refine ⟨rfl, rfl, by decide, by decide, by decide, by decide, by decide⟩

/-- C5 (amended): for every row of an invoice-kind group with positive total
amount, the built line has quantity 1, unit price equal to the row's parsed
total amount exactly as parsed (no re-rounding), and the description is the
row's stripped description unchanged (no `"Qty: N"` annotation). -/
theorem C5_invoice_line_shape_amended :
    ∀ (resolveItem : Row → String) (r : Row), Dec.ofInt 0 < r.totalAmount →
      (build_line_row resolveItem true r).map lineQty = some (some (Dec.ofInt 1)) ∧
      (build_line_row resolveItem true r).map lineUnitPrice = some (some r.totalAmount) ∧
      (build_line_row resolveItem true r).map lineDesc = some (some (pyStrip r.description)) := by
  intro resolveItem r h
  have hm : 0 < r.totalAmount.m := (dec_zero_lt _).mp h
  have hneg : ¬ (r.totalAmount ≤ Dec.ofInt 0) := by
    rw [dec_le_zero]
    omega
  unfold build_line_row
  rw [if_neg hneg]
  exact ⟨rfl, rfl, rfl⟩

/-- C5 witness: the claim's own scenario at total `330.00`: quantity 1, unit
price 330.00, description `Dressing`. -/
theorem C5_invoice_line_shape_amended_witness :
    (build_line_row (fun _ => "11") true c5wRow).map lineQty = some (some (Dec.ofInt 1)) ∧
    (build_line_row (fun _ => "11") true c5wRow).map lineUnitPrice =
      some (some ((⟨330, 0⟩ : Dec))) ∧
    (build_line_row (fun _ => "11") true c5wRow).map lineDesc = some (some "Dressing") := by
  have h := C5_invoice_line_shape_amended (fun _ => "11") c5wRow (by decide)
  exact ⟨h.1, h.2.1, h.2.2⟩

/-- The CSV parser's money normalizer computes exactly the spec's §4.1
algorithm on every input. -/
theorem safe_parse_money_eq_spec (v : String) :
    safe_parse_money v = spec_money_normalize v := by
  unfold safe_parse_money spec_money_normalize
  by_cases hv : v = ""
  · subst hv; rfl
  · rw [if_neg hv, filterMoney_strip]
    by_cases h1 : filterMoney v = ""
    · simp [h1]
    · by_cases h2 : filterMoney v = "."
      · simp [h1, h2]
      · by_cases h3 : filterMoney v = "-"
        · simp [h1, h2, h3]
        · by_cases h4 : filterMoney v = "-."
          · rw [if_pos (by simp [h4]), if_neg (by simp [h1, h2, h3]), h4]
            rfl
          · rw [if_neg (by simp [h1, h2, h3, h4]), if_neg (by simp [h1, h2, h3])]
            cases parsePyDecimal (filterMoney v) <;> rfl

/-- C6 counterexample: the duplicate `parse_money` inside `app.process_csv_file`
is NOT total — on `"--"` the residue passes its guard and the `Decimal`
constructor raises, where the claim requires `0.00`; the canonical
`_safe_parse_money` returns `0.00` for the same input. -/
theorem C6_counterexample :
    parse_money_app "--" = Except.error "InvalidOperation" ∧
    safe_parse_money "--" = ⟨0, 0⟩ := by
  exact ⟨rfl, by decide⟩

/-- C6 (amended): the canonical money normalizer `_safe_parse_money` is
total, computes exactly the spec's strip/sentinel/parse-else-0 algorithm on
every input, and maps `"1,234.50 KES"` to 1234.50 and `"--"` to 0.00; the
`app.py` duplicate agrees on residues that are valid decimals but propagates
the decimal parse error on residues like `"--"`. -/
theorem C6_money_normalization_amended :
    (∀ v : String, safe_parse_money v = spec_money_normalize v) ∧
    safe_parse_money "1,234.50 KES" = ⟨12345, 1⟩ ∧
    safe_parse_money "--" = ⟨0, 0⟩ ∧
    parse_money_app "1,234.50 KES" = .ok ⟨12345, 1⟩ := by
  exact ⟨safe_parse_money_eq_spec, by decide, by decide, rfl⟩

/-- C7 counterexample: the exact-match variant table lets any unrecognized
flag value through capitalized — `"maybe"` normalizes to `"Maybe"`, a third
value distinct from `"Yes"` and `"No"`. -/
theorem C7_counterexample :
    normalize_insurance_flag "maybe" = "Maybe" ∧
    ("Maybe" : String) ≠ "Yes" ∧ ("Maybe" : String) ≠ "No" := by
  refine ⟨by decide, by decide, by decide⟩

/-- C7 (amended): after lower+strip, the recognized variants and the empty
string normalize to strictly `"Yes"`/`"No"`, but any other value survives as
its capitalization — a third value can escape the flag normalization. -/
theorem C7_flag_normalization_amended :
    (∀ v : String, pyStrip (pyLower v) = "" ∨ pyStrip (pyLower v) = "no" ∨
      pyStrip (pyLower v) = "n" → normalize_insurance_flag v = "No") ∧
    (∀ v : String, pyStrip (pyLower v) = "yes" ∨ pyStrip (pyLower v) = "y" ∨
      pyStrip (pyLower v) = "true" → normalize_insurance_flag v = "Yes") ∧
    (∀ v : String,
      ¬ (pyStrip (pyLower v) = "" ∨ pyStrip (pyLower v) = "no" ∨ pyStrip (pyLower v) = "n") →
      ¬ (pyStrip (pyLower v) = "yes" ∨ pyStrip (pyLower v) = "y" ∨
         pyStrip (pyLower v) = "true") →
      normalize_insurance_flag v = pyCapitalize (pyStrip (pyLower v))) := by
  refine ⟨?_, ?_, ?_⟩
  · intro v h
    unfold normalize_insurance_flag
    rcases h with h | h | h <;> rw [h] <;> rfl
  · intro v h
    unfold normalize_insurance_flag
    rcases h with h | h | h <;> rw [h] <;> rfl
  · intro v h1 h2
    unfold normalize_insurance_flag
    dsimp only
    rw [if_neg h1, if_neg h2]

/-- C7 witness: the amended branches at `" N "`, `"TRUE"` and `"maybe"`. -/
theorem C7_flag_normalization_amended_witness :
    normalize_insurance_flag " N " = "No" ∧
    normalize_insurance_flag "TRUE" = "Yes" ∧
    normalize_insurance_flag "maybe" = pyCapitalize (pyStrip (pyLower "maybe")) := by
  refine ⟨?_, ?_, ?_⟩
  · exact C7_flag_normalization_amended.1 " N " (by decide)
  · exact C7_flag_normalization_amended.2.1 "TRUE" (by decide)
  · exact C7_flag_normalization_amended.2.2 "maybe" (by decide) (by decide)

/-- C8 counterexample: in `src/main.py`'s inline builder — cited by the
claim — the skip test is quantity × unit cost, not the row total: the
zero-total row `c8Row` (quantity 1, unit cost 100.00) still produces a
line. -/
theorem C8_counterexample :
    c8Row.totalAmount = ⟨0, 0⟩ ∧
    (main_build_lines (fun _ => "11") [c8Row]).length = 1 := by
  exact ⟨rfl, by decide⟩

/-- C8 (amended): in `app.build_lines` a row whose parsed total amount is
≤ 0 contributes no line, for both the invoice and the receipt kind — the
built line list equals the list built from only the positive-total rows;
the superseded `src/main.py` inline builder instead skips on
quantity × unit cost = 0 and does emit lines for zero-total rows. -/
theorem C8_zero_amount_exclusion_amended :
    (∀ (resolveItem : Row → String) (for_invoice : Bool) (r : Row),
      r.totalAmount ≤ Dec.ofInt 0 → build_line_row resolveItem for_invoice r = none) ∧
    (∀ (resolveItem : Row → String) (is_ph : Row → Bool) (for_invoice : Bool)
      (g : List Row),
      (build_lines resolveItem is_ph for_invoice g).1 =
        (build_lines resolveItem is_ph for_invoice
          (g.filter (fun r => decide (Dec.ofInt 0 < r.totalAmount)))).1) := by
  have hnone : ∀ (resolveItem : Row → String) (for_invoice : Bool) (r : Row),
      r.totalAmount ≤ Dec.ofInt 0 → build_line_row resolveItem for_invoice r = none := by
    intro resolveItem for_invoice r h
    unfold build_line_row
    rw [if_pos h]
  refine ⟨hnone, ?_⟩
  intro resolveItem is_ph for_invoice g
  show g.filterMap (build_line_row resolveItem for_invoice) = _
  rw [filterMap_filter (p := fun r => decide (Dec.ofInt 0 < r.totalAmount)) ?_ g]
  · rfl
  · intro r hr
    refine hnone resolveItem for_invoice r ?_
    rw [dec_le_zero]
    have : ¬ (Dec.ofInt 0 < r.totalAmount) := by
      simpa using hr
    rw [dec_zero_lt] at this
    omega

/-- C8 witness: the amended parts applied at the zero-total row `c8Row`. -/
theorem C8_zero_amount_exclusion_amended_witness :
    build_line_row (fun _ => "11") true c8Row = none ∧
    build_line_row (fun _ => "11") false c8Row = none ∧
    (build_lines (fun _ => "11") (fun _ => false) false [c8Row]).1 =
      (build_lines (fun _ => "11") (fun _ => false) false
        ([c8Row].filter (fun r => decide (Dec.ofInt 0 < r.totalAmount)))).1 := by
  refine ⟨?_, ?_, ?_⟩
  · exact C8_zero_amount_exclusion_amended.1 (fun _ => "11") true c8Row (by decide)
  · exact C8_zero_amount_exclusion_amended.1 (fun _ => "11") false c8Row (by decide)
  · exact C8_zero_amount_exclusion_amended.2 (fun _ => "11") (fun _ => false) false [c8Row]

/-- C9: `_query_safe` is total by construction; whenever the underlying
request raises, it returns the empty result envelope, and the callers built
on it (`find_item_by_name`, the customer lookups) observe "not found" rather
than an aborted batch. -/
theorem C9_query_never_throws :
    (∀ (remote : Remote) (sql err : String), remote sql = .error err →
      query_safe remote sql = JVal.obj [("QueryResponse", JVal.obj [])]) ∧
    (∀ e name : String, find_item_by_name (fun _ => .error e) name = none) ∧
    (∀ e name : String, get_customer_id_by_name (fun _ => .error e) name = none) ∧
    (∀ e name : String, fallback_search_by_components (fun _ => .error e) name = none) := by
  refine ⟨?_, ?_, ?_, ?_⟩
  · intro remote sql err h
    unfold query_safe
    rw [h]
  · intro e name
    unfold find_item_by_name
    by_cases h : name = "" <;> simp [h, query_safe, JVal.getD, JVal.get?, lookupField]
  · intro e name
    unfold get_customer_id_by_name
    have hlike : ∀ v : String, likeSearchCustomer (fun _ => .error e) v = none :=
      fun _ => rfl
    dsimp only
    rw [findSome_none (fun a _ => hlike a)]
    rfl
  · intro e name
    unfold fallback_search_by_components
    exact findSome_none (fun t _ => rfl)

/-- C9 witness: the failing-remote behaviour at concrete inputs. -/
theorem C9_query_never_throws_witness :
    query_safe (fun _ => .error "boom") "SELECT * FROM Item" =
      JVal.obj [("QueryResponse", JVal.obj [])] ∧
    find_item_by_name (fun _ => .error "boom") "Dressing" = none ∧
    get_customer_id_by_name (fun _ => .error "boom") "Jane Doe ID 77" = none := by
  refine ⟨?_, ?_, ?_⟩
  · exact C9_query_never_throws.1 (fun _ => .error "boom") "SELECT * FROM Item" "boom" rfl
  · exact C9_query_never_throws.2.1 "boom" "Dressing"
  · exact C9_query_never_throws.2.2.1 "boom" "Jane Doe ID 77"

/-- `.data` distributes over a double append. -/
theorem string_append_data (a b c : String) :
    (a ++ b ++ c).data = a.data ++ (b.data ++ c.data) := by
  cases a; cases b; cases c
  simp [String.append]

/-- When no exact-named customer exists but some display name contains the
searched name (case-insensitively), `get_customer_id_by_name` returns the id
of the FIRST such partial match, found through the `LIKE '%name%'` probe. -/
theorem get_customer_like_binding (cs : List CustomerDoc) (name : String)
    (hq : strContains name "'" = false)
    (hex : ∀ c ∈ cs, ¬ c.displayName = name)
    (hpm : cs.filter (fun c => strContains (pyLower c.displayName) (pyLower name)) ≠ []) :
    get_customer_id_by_name (customerRemote cs) name =
      ((cs.filter (fun c => strContains (pyLower c.displayName) (pyLower name))).head?).map
        CustomerDoc.id := by
  have hesc : pyReplace name "'" "''" = name := pyReplace_absent hq
  have hq2 : strContains name "''" = false := by
    unfold strContains at hq ⊢
    exact containsL_pair name.data hq
  have hunesc : pyReplace name "''" "'" = name := pyReplace_absent hq2
  obtain ⟨c0, rest, hcr⟩ : ∃ c0 rest,
      cs.filter (fun c => strContains (pyLower c.displayName) (pyLower name)) = c0 :: rest := by
    cases hh : cs.filter (fun c => strContains (pyLower c.displayName) (pyLower name)) with
    | nil => exact absurd hh hpm
    | cons a l => exact ⟨a, l, rfl⟩
  have hfil : cs.filter (fun c => decide (c.displayName = name)) = [] := by
    rw [List.filter_eq_nil_iff]
    intro c hc
    simpa using hex c hc
  have hexq : query_safe (customerRemote cs)
      ("SELECT Id, DisplayName FROM Customer WHERE DisplayName = '" ++ name ++
        "' MAXRESULTS 1") =
      JVal.obj [("maxResults", JVal.num ⟨0, 0⟩)] := by
    unfold query_safe customerRemote
    rw [extractBetween_append]
    dsimp only
    rw [hunesc, hfil]
    rfl
  have hpref : isPrefixL
      ("SELECT Id, DisplayName FROM Customer WHERE DisplayName = '").data
      (("SELECT Id, DisplayName FROM Customer WHERE DisplayName LIKE '%" ++ name ++
        "%' MAXRESULTS 5")).data = false := by
    rw [string_append_data, isPrefixL_trunc _ _ _ (by decide)]
    decide
  have hfail : extractBetween
      ("SELECT Id, DisplayName FROM Customer WHERE DisplayName LIKE '%" ++ name ++
        "%' MAXRESULTS 5")
      "SELECT Id, DisplayName FROM Customer WHERE DisplayName = '" "' MAXRESULTS 1" =
      none := by
    unfold extractBetween
    rw [if_neg]
    rw [hpref]
    exact Bool.false_ne_true
  have hlikeq : likeSearchCustomer (customerRemote cs) name = some c0.id := by
    unfold likeSearchCustomer
    rw [hesc]
    unfold query_safe customerRemote
    dsimp only
    rw [hfail]
    dsimp only
    rw [extractBetween_append]
    dsimp only
    rw [hunesc, hcr]
    rfl
  unfold get_customer_id_by_name
  dsimp only
  rw [hesc, hexq, List.findSome?_cons, hlikeq, hcr]
  rfl

/-- C10 (implicit): customer lookup by display name is not purely exact —
when the exact query misses, the `LIKE '%name%'` fallback binds to the first
customer whose display name merely CONTAINS the searched name
(case-insensitively), and the duplicate-recovery fallback searches per
token; concretely, searching `Alice Smith ID 77` binds to customer `9`
(`Alice Smith ID 77 Estate`), and the token fallback binds `Zed Quux ID
12345` to customer `4` (`Bob 12345 Jones`). -/
theorem C10_customer_lookup_partial_match :
    (∀ (cs : List CustomerDoc) (name : String),
      strContains name "'" = false →
      (∀ c ∈ cs, ¬ c.displayName = name) →
      cs.filter (fun c => strContains (pyLower c.displayName) (pyLower name)) ≠ [] →
      get_customer_id_by_name (customerRemote cs) name =
        ((cs.filter (fun c =>
          strContains (pyLower c.displayName) (pyLower name))).head?).map
          CustomerDoc.id) ∧
    (get_customer_id_by_name (customerRemote c10Cs) "Alice Smith ID 77" = some "9" ∧
      (∀ c ∈ c10Cs, ¬ c.displayName = "Alice Smith ID 77")) ∧
    (fallback_search_by_components (customerRemote c10Cs3) "Zed Quux ID 12345" = some "4" ∧
      (∀ c ∈ c10Cs3, ¬ c.displayName = "Zed Quux ID 12345")) := by
  refine ⟨get_customer_like_binding, ⟨by decide, ?_⟩, ⟨by decide, ?_⟩⟩
  · intro c hc
    rw [List.mem_singleton.mp hc]
    decide
  · intro c hc
    rw [List.mem_singleton.mp hc]
    decide

/-- C10 witness: the general partial-match lemma at the concrete remote. -/
theorem C10_customer_lookup_partial_match_witness :
    get_customer_id_by_name (customerRemote c10Cs) "Alice Smith ID 77" =
      ((c10Cs.filter (fun c =>
        strContains (pyLower c.displayName) (pyLower "Alice Smith ID 77"))).head?).map
        CustomerDoc.id := by
  refine C10_customer_lookup_partial_match.1 c10Cs "Alice Smith ID 77" (by decide) ?_ (by decide)
  intro c hc
  rw [List.mem_singleton.mp hc]
  decide
